import Mathlib

/-!
Verification of the BoPi client library specification.

The repository ships only the tests (tests/test_bopi_client.py,
tests/test_helper.py) and an example script; the library modules
(bopi.helper, the BoPiClient transport and domain mapper, the exception
hierarchy) are not present. Every definition below is therefore modelled
from the specification, with concrete messages and behaviours pinned by
the tests where the tests assert them.
-/

namespace BoPi

/-- Modelled from the spec: transport-level failure causes for one HTTP
exchange (network-level failure such as DNS, connect refused, reset — all
surfaced by the HTTP stack as a client error — or expiry of the configured
request timeout). -/
inductive TransportFailure where
  | timeoutExpiry
  | clientError (desc : String)
deriving DecidableEq, Repr

/-- Modelled from the spec: the typed exception kinds of the library
(ConfigError, ConnectionError, generic Error, ValidationError). The
ConnectionError constructor wraps the underlying transport cause. -/
inductive BoPiException where
  | boPiError (msg : String)
  | boPiConnectionError (cause : TransportFailure)
  | boPiValidationError (msg : String)
  | boPiConfigError (msg : String)
deriving DecidableEq, Repr

/-- Modelled from the spec and tests: exceptions observable by a caller.
The tests show the missing-required-field failure of get_sensors_state is
the builtin KeyError, which is not part of the BoPi typed hierarchy, so
the observable exception type is a sum of the two. -/
inductive PyException where
  | boPi (e : BoPiException)
  | keyError (msg : String)
deriving DecidableEq, Repr

/-- Modelled from the spec: a decoded JSON value; the generic response
payload is a mapping from string keys to arbitrary decoded JSON values. -/
inductive JValue where
  | null
  | bool (b : Bool)
  | str (s : String)
  | num (q : ℚ)
  | obj (fields : List (String × JValue))

/-- Field lookup in a decoded JSON object; yields nothing on non-objects. -/
def JValue.getField : JValue → String → Option JValue
  | .obj fields, key => fields.lookup key
  | _, _ => none

/-- Modelled from the spec: the body of an HTTP response, as the raw
response text together with the outcome of attempting to decode it as
JSON (none when JSON decoding fails). -/
structure HttpBody where
  text : String
  parsed : Option JValue

/-- Modelled from the spec: the result of the network exchange feeding one
request call — either a transport-level failure, or a response with an
HTTP status, a Content-Type header and a body. -/
inductive HttpOutcome where
  | failure (f : TransportFailure)
  | response (status : Int) (contentType : String) (body : HttpBody)

/-- Boolean test that a character-list pattern occurs at the head. -/
def leadsWith : List Char → List Char → Bool
  | [], _ => true
  | _ :: _, [] => false
  | p :: ps, c :: cs => p == c && leadsWith ps cs

/-- Boolean test that a character-list pattern occurs somewhere. -/
def containsSeq : List Char → List Char → Bool
  | pat, [] => leadsWith pat []
  | pat, c :: cs => leadsWith pat (c :: cs) || containsSeq pat cs

/-- Modelled from the spec: the response Content-Type header claims JSON
when it mentions the JSON media type. -/
def isJsonContentType (ct : String) : Bool :=
  containsSeq "application/json".data ct.data

/-- Server-supplied error text extracted from a decoded JSON error body. -/
def errorText (v : JValue) : Option String :=
  match v.getField "error" with
  | some (.str s) => some s
  | _ => none

/-- Modelled from the spec: the message of the generic API error on an
error HTTP status. It always includes the numeric status code (the tests
pin the prefix "API returned error status"), and appends the
server-supplied error text when the body decodes as JSON and carries an
error field; when JSON decoding fails it falls back to the generic
message, still carrying the status code. -/
def statusErrorMessage (status : Int) (body : HttpBody) : String :=
  match body.parsed with
  | some v =>
    match errorText v with
    | some e => "API returned error status " ++ toString status ++ ": " ++ e
    | none => "API returned error status " ++ toString status
  | none => "API returned error status " ++ toString status

/-- Modelled from the spec: the classification and decoding performed by
request on the outcome of the network exchange. Transport failures become
ConnectionError wrapping the cause; an error status (at least 400) becomes
the generic API error with the status code in the message; a success
status with a JSON content type returns the parsed structure, or the
generic API error "Failed to parse JSON response" (message pinned by the
tests) when decoding fails; a non-JSON success wraps the raw text under a
synthetic message key. -/
def request (outcome : HttpOutcome) : Except PyException JValue :=
  match outcome with
  | .failure f => .error (.boPi (.boPiConnectionError f))
  | .response status ct body =>
    if 400 ≤ status then
      .error (.boPi (.boPiError (statusErrorMessage status body)))
    else if isJsonContentType ct then
      match body.parsed with
      | some v => .ok v
      | none => .error (.boPi (.boPiError "Failed to parse JSON response"))
    else
      .ok (.obj [("message", .str body.text)])

/-- Modelled from the spec: the disconnected-sensor sentinel value. -/
def DISCONNECTED_SENSOR_VALUE : ℚ := -127

/-- Modelled from the spec: normalize_sensor maps the sentinel to absence
and passes every other value through unchanged. -/
def normalize_sensor (value : ℚ) : Option ℚ :=
  if value = DISCONNECTED_SENSOR_VALUE then none else some value

/-- Modelled from the spec: require_non_negative raises a validation error
for a negative value and is a no-op otherwise (zero is valid). -/
def require_non_negative (field : String) (value : ℚ) : Except PyException Unit :=
  if value < 0 then
    .error (.boPi (.boPiValidationError (field ++ " must be non-negative")))
  else .ok ()

/-- Modelled from the spec: require_range raises a validation error when
the value is below the minimum or above the maximum; boundary values are
valid (inclusive range). -/
def require_range (field : String) (value lo hi : ℚ) : Except PyException Unit :=
  if value < lo ∨ hi < value then
    .error (.boPi (.boPiValidationError (field ++ " out of range")))
  else .ok ()

/-- Modelled from the spec: the validated client configuration (host,
port, request timeout). -/
structure ClientConfig where
  host : String
  port : Int
  request_timeout : Int
deriving DecidableEq, Repr

/-- Modelled from the spec: eager validation of the construction
parameters, each violation raising its distinct ConfigError with the
message pinned by the tests; a valid configuration is produced otherwise,
so errors are raised at construction and never deferred to request time. -/
def mkBoPiClient (host : String) (port : Int) (request_timeout : Int) :
    Except PyException ClientConfig :=
  if host = "" then
    .error (.boPi (.boPiConfigError "host must be a non-empty string"))
  else if port < 1 ∨ 65535 < port then
    .error (.boPi (.boPiConfigError "port must be between 1 and 65535"))
  else if request_timeout ≤ 0 then
    .error (.boPi (.boPiConfigError "request_timeout must be positive"))
  else
    .ok (ClientConfig.mk host port request_timeout)

/-- Modelled from the spec: the client state relevant to session
ownership — the configuration, the session handle (by identifier) when
one exists, and the owns-this-resource flag set only when the client
created the session itself. -/
structure BoPiClientState where
  config : ClientConfig
  session : Option Nat
  close_session : Bool
deriving DecidableEq, Repr

/-- Modelled from the spec: construction with an optionally supplied
external session; a supplied session is borrowed, never owned. -/
def mkClientState (config : ClientConfig) (externalSession : Option Nat) :
    BoPiClientState :=
  BoPiClientState.mk config externalSession false

/-- Modelled from the spec: lazy acquisition of the session — when none
was supplied the client creates one and records exclusive ownership. -/
def ensureSession (c : BoPiClientState) (freshId : Nat) : BoPiClientState :=
  match c.session with
  | some _ => c
  | none => BoPiClientState.mk c.config (some freshId) true

/-- Modelled from the spec: teardown. Closing the client (also on scope
exit) closes only a session it created itself; the world of open sessions
is modelled as the list of open session identifiers, and the client state
itself is returned unchanged. -/
def close (c : BoPiClientState) (openSessions : List Nat) :
    BoPiClientState × List Nat :=
  if c.close_session then
    match c.session with
    | some sid => (c, openSessions.filter (fun s => s ≠ sid))
    | none => (c, openSessions)
  else (c, openSessions)

/-- Modelled from the spec: the fixed sensors endpoint path. -/
def SENSOR_ENDPOINT : String := "/allsensorsv2"

/-- Modelled from the spec: the typed sensor-state result, a fixed set of
named optional-numeric fields, each normalized (the sentinel becomes
absence). The field set follows the fields exercised by the tests. -/
structure SensorsState where
  phvalue : Option ℚ
  redoxvalue : Option ℚ
  boxhumidity : Option ℚ
  uptime : Option ℚ

/-- Modelled from the spec: the required fields of the sensor payload, in
lookup order. -/
def requiredSensorFields : List String :=
  ["phvalue", "redoxvalue", "boxhumidity", "uptime"]

/-- Modelled from the spec: look up one required numeric field in the
generic payload; when it is absent (a field present with a non-numeric
value is treated as missing) the builtin KeyError is raised with the
message pinned by the tests, naming the field. -/
def getSensorField (payload : JValue) (field : String) :
    Except PyException ℚ :=
  match payload.getField field with
  | some (.num q) => .ok q
  | _ => .error (.keyError ("Missing required field in sensor data: " ++ field))

/-- Boolean presence test for one required numeric sensor field. -/
def sensorFieldPresent (payload : JValue) (field : String) : Bool :=
  match payload.getField field with
  | some (.num _) => true
  | _ => false

/-- Validation of an optional normalized field value: absent values (the
disconnected sensor) are not range checked. -/
def checkOpt (v : Option ℚ) (check : ℚ → Except PyException Unit) :
    Except PyException Unit :=
  match v with
  | some q => check q
  | none => .ok ()

/-- Modelled from the spec: get_sensors_state calls request on the fixed
sensors endpoint, extracts each required field (raising KeyError when one
is missing), normalizes each raw value, validates the present values with
the field-specific bounds, and constructs the typed result. -/
def get_sensors_state (outcome : HttpOutcome) :
    Except PyException SensorsState := do
  let payload ← request outcome
  let rawPh ← getSensorField payload "phvalue"
  let rawRedox ← getSensorField payload "redoxvalue"
  let rawHum ← getSensorField payload "boxhumidity"
  let rawUp ← getSensorField payload "uptime"
  let ph := normalize_sensor rawPh
  let redox := normalize_sensor rawRedox
  let hum := normalize_sensor rawHum
  let up := normalize_sensor rawUp
  checkOpt ph (fun q => require_range "phvalue" q 0 14)
  checkOpt redox (fun q => require_range "redoxvalue" q 0 1000)
  checkOpt hum (fun q => require_range "boxhumidity" q 0 100)
  checkOpt up (fun q => require_non_negative "uptime" q)
  pure (SensorsState.mk ph redox hum up)

/-- Projection extracting the generic API error message of a request
result, when the result is one. -/
def errMsg : Except PyException JValue → Option String
  | .error (.boPi (.boPiError m)) => some m
  | _ => none

/-- First required sensor field missing from a payload, in lookup order:
the field get_sensors_state names in its missing-field failure. -/
def firstMissingSensorField (payload : JValue) : Option String :=
  requiredSensorFields.find? (fun f => ! sensorFieldPresent payload f)

/-- Boolean classifier: the sensor-state result is a ValidationError. -/
def isBoPiValidationError : Except PyException SensorsState → Bool
  | .error (.boPi (.boPiValidationError _)) => true
  | _ => false

/-- Boolean classifier: the sensor-state result is a typed success. -/
def isOkState : Except PyException SensorsState → Bool
  | .ok _ => true
  | _ => false

/-- Boolean classifier: the sensor-state result is the builtin KeyError. -/
def isKeyError : Except PyException SensorsState → Bool
  | .error (.keyError _) => true
  | _ => false

/-- Boolean classifier: the sensor-state result is one of the typed BoPi
exceptions. -/
def isBoPiException : Except PyException SensorsState → Bool
  | .error (.boPi _) => true
  | _ => false

/-- Bind on an ok Except value evaluates the continuation. -/
theorem except_bind_ok {α β : Type} (a : α) (f : α → Except PyException β) :
    (Except.ok a >>= f : Except PyException β) = f a := rfl

/-- Bind on an error Except value propagates the error. -/
theorem except_bind_error {α β : Type} (e : PyException)
    (f : α → Except PyException β) :
    ((Except.error e : Except PyException α) >>= f) = Except.error e := rfl

/-- Looking up an absent required sensor field yields the KeyError naming
the field. -/
theorem getSensorField_eq_error (payload : JValue) (f : String)
    (h : sensorFieldPresent payload f = false) :
    getSensorField payload f =
      .error (.keyError ("Missing required field in sensor data: " ++ f)) := by
  unfold sensorFieldPresent at h
  unfold getSensorField
  rcases hm : payload.getField f with _ | v
  · rfl
  · rw [hm] at h
    cases v <;> simp_all

/-- Looking up a present required sensor field yields its numeric value. -/
theorem getSensorField_eq_ok_of_present (payload : JValue) (f : String)
    (h : sensorFieldPresent payload f = true) :
    ∃ q : ℚ, getSensorField payload f = .ok q := by
  unfold sensorFieldPresent at h
  unfold getSensorField
  rcases hm : payload.getField f with _ | v
  · rw [hm] at h; simp at h
  · rw [hm] at h
    cases v <;> simp_all

/-- When the decoded payload lacks a required field, get_sensors_state
stops at the first missing field and raises the KeyError naming it. -/
theorem get_sensors_state_first_missing
    (outcome : HttpOutcome) (payload : JValue) (g : String)
    (hreq : request outcome = .ok payload)
    (hmiss : firstMissingSensorField payload = some g) :
    get_sensors_state outcome =
      .error (.keyError ("Missing required field in sensor data: " ++ g)) := by
  unfold firstMissingSensorField requiredSensorFields at hmiss
  cases h1 : sensorFieldPresent payload "phvalue" with
  | false =>
    simp [List.find?, h1] at hmiss
    subst hmiss
    simp [get_sensors_state, hreq, except_bind_ok, except_bind_error,
      getSensorField_eq_error payload "phvalue" h1]
  | true =>
    obtain ⟨q1, hg1⟩ := getSensorField_eq_ok_of_present payload "phvalue" h1
    cases h2 : sensorFieldPresent payload "redoxvalue" with
    | false =>
      simp [List.find?, h1, h2] at hmiss
      subst hmiss
      simp [get_sensors_state, hreq, except_bind_ok, except_bind_error, hg1,
        getSensorField_eq_error payload "redoxvalue" h2]
    | true =>
      obtain ⟨q2, hg2⟩ := getSensorField_eq_ok_of_present payload "redoxvalue" h2
      cases h3 : sensorFieldPresent payload "boxhumidity" with
      | false =>
        simp [List.find?, h1, h2, h3] at hmiss
        subst hmiss
        simp [get_sensors_state, hreq, except_bind_ok, except_bind_error, hg1, hg2,
          getSensorField_eq_error payload "boxhumidity" h3]
      | true =>
        obtain ⟨q3, hg3⟩ := getSensorField_eq_ok_of_present payload "boxhumidity" h3
        cases h4 : sensorFieldPresent payload "uptime" with
        | false =>
          simp [List.find?, h1, h2, h3, h4] at hmiss
          subst hmiss
          simp [get_sensors_state, hreq, except_bind_ok, except_bind_error,
            hg1, hg2, hg3, getSensorField_eq_error payload "uptime" h4]
        | true =>
          simp [List.find?, h1, h2, h3, h4] at hmiss

/-- C1: For every request that returns a success-range HTTP status, the
decoded generic payload is determined by the Content-Type header: if it
claims JSON and the body parses, request returns the parsed mapping; if
the content type is not JSON, request returns exactly the single-entry
mapping binding the synthetic message key to the raw response text. -/
theorem request_success_payload_classification
    (status : Int) (ct : String) (body : HttpBody) (v : JValue)
    (hs : status < 400) :
    (isJsonContentType ct = true → body.parsed = some v →
      request (.response status ct body) = .ok v) ∧
    (isJsonContentType ct = false →
      request (.response status ct body) =
        .ok (.obj [("message", .str body.text)])) := by
  constructor
  · intro hj hp
    simp [request, hj, hp, not_le.mpr hs]
  · intro hj
    simp [request, hj, not_le.mpr hs]

/-- Witness for C1 at the inputs of the tests: a 200 JSON response with
the parsed object and a 200 plain-text response with body OK. -/
theorem request_success_payload_classification_witness :
    request (.response 200 "application/json"
      (HttpBody.mk "ok body"
        (some (.obj [("status", .str "ok"), ("data", .str "test")])))) =
      .ok (.obj [("status", .str "ok"), ("data", .str "test")]) ∧
    request (.response 200 "text/plain" (HttpBody.mk "OK" none)) =
      .ok (.obj [("message", .str "OK")]) :=
  ⟨(request_success_payload_classification 200 "application/json"
      (HttpBody.mk "ok body"
        (some (.obj [("status", .str "ok"), ("data", .str "test")])))
      (.obj [("status", .str "ok"), ("data", .str "test")])
      (by decide)).1 (by decide) rfl,
   (request_success_payload_classification 200 "text/plain"
      (HttpBody.mk "OK" none) .null (by decide)).2 (by decide)⟩

/-- C2: For every response with HTTP status at least 400, request fails
with the generic API error whose message includes the numeric status
code, also when the error body fails to parse as JSON, in which case the
generic message still carries the status code. -/
theorem request_error_status_includes_code
    (status : Int) (ct : String) (body : HttpBody) (hs : 400 ≤ status) :
    request (.response status ct body) =
      .error (.boPi (.boPiError (statusErrorMessage status body))) ∧
    ∃ pre post, statusErrorMessage status body =
      pre ++ toString status ++ post := by
  constructor
  · simp [request, hs]
  · unfold statusErrorMessage
    rcases body.parsed with _ | v
    · exact ⟨"API returned error status ", "", by simp⟩
    · rcases he : errorText v with _ | e
      · exact ⟨"API returned error status ", "", by simp [he]⟩
      · exact ⟨"API returned error status ", ": " ++ e,
          by simp [he, String.append_assoc]⟩

/-- Witness for C2 at the inputs of the tests: a 404 plain-text response
and a 500 response whose JSON body fails to parse; the message carries
the status code in both cases. -/
theorem request_error_status_includes_code_witness :
    request (.response 404 "text/plain" (HttpBody.mk "Not Found!" none)) =
      .error (.boPi (.boPiError
        (statusErrorMessage 404 (HttpBody.mk "Not Found!" none)))) ∧
    statusErrorMessage 404 (HttpBody.mk "Not Found!" none) =
      "API returned error status 404" ∧
    request (.response 500 "application/json" (HttpBody.mk "bad json" none)) =
      .error (.boPi (.boPiError
        (statusErrorMessage 500 (HttpBody.mk "bad json" none)))) ∧
    statusErrorMessage 500 (HttpBody.mk "bad json" none) =
      "API returned error status 500" :=
  ⟨(request_error_status_includes_code 404 "text/plain"
      (HttpBody.mk "Not Found!" none) (by decide)).1, rfl,
   (request_error_status_includes_code 500 "application/json"
      (HttpBody.mk "bad json" none) (by decide)).1, rfl⟩

/-- C3: normalize_sensor maps the sentinel -127 to absence, is the
identity outside the sentinel (including zero and negative non-sentinel
values), and is idempotent on non-sentinel values. -/
theorem normalize_sensor_sentinel_identity :
    normalize_sensor (-127) = none ∧
    ∀ x : ℚ, x ≠ -127 →
      normalize_sensor x = some x ∧
      (normalize_sensor x).bind normalize_sensor = normalize_sensor x := by
  refine ⟨rfl, fun x hx => ?_⟩
  have h : normalize_sensor x = some x := by
    simp [normalize_sensor, DISCONNECTED_SENSOR_VALUE, hx]
  refine ⟨h, ?_⟩
  rw [h]
  exact h

/-- Witness for C3 at the negative non-sentinel value -10. -/
theorem normalize_sensor_sentinel_identity_witness :
    normalize_sensor (-10) = some (-10) ∧
    (normalize_sensor (-10)).bind normalize_sensor = normalize_sensor (-10) :=
  normalize_sensor_sentinel_identity.2 (-10) (by norm_num)

/-- C4: require_range is a no-op exactly on the inclusive range (boundary
values valid) and raises BoPiValidationError otherwise; and
require_non_negative is a no-op exactly on non-negative values (zero
valid) and raises BoPiValidationError on negative values. -/
theorem require_helpers_spec (name : String) (v lo hi : ℚ) :
    (lo ≤ hi →
      ((require_range name v lo hi = .ok ()) ↔ (lo ≤ v ∧ v ≤ hi)) ∧
      (¬ (lo ≤ v ∧ v ≤ hi) →
        require_range name v lo hi =
          .error (.boPi (.boPiValidationError (name ++ " out of range"))))) ∧
    ((require_non_negative name v = .ok ()) ↔ 0 ≤ v) ∧
    (v < 0 →
      require_non_negative name v =
        .error (.boPi (.boPiValidationError
          (name ++ " must be non-negative")))) := by
  have key : require_range name v lo hi = .ok () ↔ ¬ (v < lo ∨ hi < v) := by
    unfold require_range
    by_cases hc : v < lo ∨ hi < v <;> simp [hc]
  refine ⟨fun _ => ⟨?_, ?_⟩, ?_, ?_⟩
  · rw [key, not_or, not_lt, not_lt]
  · intro h
    have hc : v < lo ∨ hi < v := by
      rcases not_and_or.mp h with h1 | h1
      · exact Or.inl (not_le.mp h1)
      · exact Or.inr (not_le.mp h1)
    simp [require_range, hc]
  · unfold require_non_negative
    by_cases hc : v < 0
    · simp [hc, not_le.mpr hc]
    · simp [hc, not_lt.mp hc]
  · intro h
    simp [require_non_negative, h]

/-- Witness for C4 at the bounds of the tests: the pH range with an
in-range and an out-of-range value, and non-negativity at zero and -1. -/
theorem require_helpers_spec_witness :
    ((0 : ℚ) ≤ 14) ∧
    require_range "phvalue" 7 0 14 = .ok () ∧
    require_range "phvalue" 15 0 14 =
      .error (.boPi (.boPiValidationError ("phvalue" ++ " out of range"))) ∧
    require_non_negative "uptime" 0 = .ok () ∧
    require_non_negative "uptime" (-1) =
      .error (.boPi (.boPiValidationError
        ("uptime" ++ " must be non-negative"))) :=
  ⟨by norm_num,
   ((require_helpers_spec "phvalue" 7 0 14).1 (by norm_num)).1.mpr
     (by norm_num),
   ((require_helpers_spec "phvalue" 15 0 14).1 (by norm_num)).2
     (by norm_num),
   (require_helpers_spec "uptime" 0 0 0).2.1.mpr (by norm_num),
   (require_helpers_spec "uptime" (-1) 0 0).2.2 (by norm_num)⟩

/-- C5: For every decoded sensor payload that lacks at least one required
field, get_sensors_state fails with a missing-required-field error that
identifies the missing field name; the error is not a ValidationError
(it concerns presence, not range) and no partial typed result is
returned. -/
theorem get_sensors_state_missing_field_spec
    (outcome : HttpOutcome) (payload : JValue) (g : String)
    (hreq : request outcome = .ok payload)
    (hmiss : firstMissingSensorField payload = some g) :
    g ∈ requiredSensorFields ∧
    sensorFieldPresent payload g = false ∧
    get_sensors_state outcome =
      .error (.keyError ("Missing required field in sensor data: " ++ g)) ∧
    isBoPiValidationError (get_sensors_state outcome) = false ∧
    isOkState (get_sensors_state outcome) = false := by
  have hm2 : List.find? (fun f => ! sensorFieldPresent payload f)
      requiredSensorFields = some g := hmiss
  have heq := get_sensors_state_first_missing outcome payload g hreq hmiss
  refine ⟨List.mem_of_find?_eq_some hm2, ?_, heq, ?_, ?_⟩
  · have hp := List.find?_some hm2
    simpa using hp
  · rw [heq]
    rfl
  · rw [heq]
    rfl

/-- Witness for C5 at the input of the missing-field test: a payload
carrying only a status field, so the first required field is missing. -/
theorem get_sensors_state_missing_field_spec_witness :
    "phvalue" ∈ requiredSensorFields ∧
    sensorFieldPresent (JValue.obj [("status", JValue.str "nok")])
      "phvalue" = false ∧
    get_sensors_state (.response 200 "application/json"
      (HttpBody.mk "nok body" (some (JValue.obj [("status", JValue.str "nok")])))) =
      .error (.keyError ("Missing required field in sensor data: " ++ "phvalue")) ∧
    isBoPiValidationError (get_sensors_state (.response 200 "application/json"
      (HttpBody.mk "nok body"
        (some (JValue.obj [("status", JValue.str "nok")]))))) = false ∧
    isOkState (get_sensors_state (.response 200 "application/json"
      (HttpBody.mk "nok body"
        (some (JValue.obj [("status", JValue.str "nok")]))))) = false :=
  get_sensors_state_missing_field_spec
    (.response 200 "application/json"
      (HttpBody.mk "nok body" (some (JValue.obj [("status", JValue.str "nok")]))))
    (JValue.obj [("status", JValue.str "nok")]) "phvalue" rfl rfl

/-- C6: For every failed network exchange (client-level transport error)
and for timeout expiry, request fails with BoPiConnectionError wrapping
the underlying cause. -/
theorem request_transport_failure_connection (f : TransportFailure) :
    request (.failure f) = .error (.boPi (.boPiConnectionError f)) := rfl

/-- C7 counterexample: on a success status whose Content-Type claims JSON
but whose body fails to parse, the generic API error message is not the
lowercase "failed to parse JSON response"; the tests pin the message
"Failed to parse JSON response". -/
theorem request_parse_failure_message_case :
    request (.response 200 "application/json" (HttpBody.mk "status nok" none)) ≠
      .error (.boPi (.boPiError "failed to parse JSON response")) := by
  intro h
  have h2 := congrArg errMsg h
  simp [errMsg, request, isJsonContentType, containsSeq, leadsWith] at h2

/-- C7 amended: for every response with a success-range HTTP status whose
Content-Type claims JSON but whose body fails to parse as JSON, request
raises the generic API error with the message "Failed to parse JSON
response" instead of returning any payload. -/
theorem request_parse_failure_error (status : Int) (ct : String)
    (body : HttpBody) (hs : status < 400)
    (hj : isJsonContentType ct = true) (hp : body.parsed = none) :
    request (.response status ct body) =
      .error (.boPi (.boPiError "Failed to parse JSON response")) := by
  simp [request, hj, hp, not_le.mpr hs]

/-- Witness for the amended C7 at the input of the malformed-JSON test. -/
theorem request_parse_failure_error_witness :
    request (.response 200 "application/json" (HttpBody.mk "status nok" none)) =
      .error (.boPi (.boPiError "Failed to parse JSON response")) :=
  request_parse_failure_error 200 "application/json"
    (HttpBody.mk "status nok" none) (by decide) (by decide) rfl

/-- C8: Construction parameters are validated eagerly by the constructor
itself: an empty host, a port outside 1..65535 and a non-positive request
timeout each fail at construction with their distinct BoPiConfigError
message, so the failure is never deferred to request time. -/
theorem mkBoPiClient_eager_validation (host : String) (port t : Int) :
    (host = "" → mkBoPiClient host port t =
      .error (.boPi (.boPiConfigError "host must be a non-empty string"))) ∧
    (host ≠ "" → (port < 1 ∨ 65535 < port) → mkBoPiClient host port t =
      .error (.boPi (.boPiConfigError "port must be between 1 and 65535"))) ∧
    (host ≠ "" → 1 ≤ port → port ≤ 65535 → t ≤ 0 → mkBoPiClient host port t =
      .error (.boPi (.boPiConfigError "request_timeout must be positive"))) := by
  refine ⟨fun hh => ?_, fun hh hp => ?_, fun hh hp1 hp2 ht => ?_⟩
  · simp [mkBoPiClient, hh]
  · simp [mkBoPiClient, hh, hp]
  · have hp : ¬ (port < 1 ∨ 65535 < port) := by
      rw [not_or, not_lt, not_lt]
      exact ⟨hp1, hp2⟩
    simp [mkBoPiClient, hh, hp, ht]

/-- Witness for C8 at the inputs of the tests: empty host, ports -1 and
65536, timeouts 0 and -1. -/
theorem mkBoPiClient_eager_validation_witness :
    mkBoPiClient "" 80 10 =
      .error (.boPi (.boPiConfigError "host must be a non-empty string")) ∧
    mkBoPiClient "example.com" (-1) 10 =
      .error (.boPi (.boPiConfigError "port must be between 1 and 65535")) ∧
    mkBoPiClient "example.com" 65536 10 =
      .error (.boPi (.boPiConfigError "port must be between 1 and 65535")) ∧
    mkBoPiClient "example.com" 80 0 =
      .error (.boPi (.boPiConfigError "request_timeout must be positive")) ∧
    mkBoPiClient "example.com" 80 (-1) =
      .error (.boPi (.boPiConfigError "request_timeout must be positive")) :=
  ⟨(mkBoPiClient_eager_validation "" 80 10).1 rfl,
   (mkBoPiClient_eager_validation "example.com" (-1) 10).2.1
     (by decide) (by decide),
   (mkBoPiClient_eager_validation "example.com" 65536 10).2.1
     (by decide) (by decide),
   (mkBoPiClient_eager_validation "example.com" 80 0).2.2
     (by decide) (by decide) (by decide) (by decide),
   (mkBoPiClient_eager_validation "example.com" 80 (-1)).2.2
     (by decide) (by decide) (by decide) (by decide)⟩

/-- C9: Closing the client closes only a session it created itself. With
an externally supplied session, close (also on scope exit) changes
neither the client state nor the world of open sessions, leaving the
supplied session open for the caller; with no supplied session, close
removes exactly the internally created session from the open sessions and
leaves the rest of the client state unchanged. -/
theorem close_session_ownership (cfg : ClientConfig) (sid freshId : Nat)
    (world : List Nat) :
    close (ensureSession (mkClientState cfg (some sid)) freshId) world =
      (ensureSession (mkClientState cfg (some sid)) freshId, world) ∧
    ensureSession (mkClientState cfg (some sid)) freshId =
      mkClientState cfg (some sid) ∧
    (close (ensureSession (mkClientState cfg none) freshId) world).1 =
      ensureSession (mkClientState cfg none) freshId ∧
    (close (ensureSession (mkClientState cfg none) freshId) world).2 =
      world.filter (fun s => s ≠ freshId) ∧
    (ensureSession (mkClientState cfg none) freshId).session = some freshId :=
  ⟨rfl, rfl, rfl, rfl, rfl⟩

/-- C10: The missing-required-field failure of get_sensors_state is
raised as the builtin KeyError, whose message starts with the text of the
tests and names the field, and not as one of the typed BoPi exceptions,
so a caller catching only BoPi-typed exceptions will not catch it. -/
theorem get_sensors_state_keyError_not_typed
    (outcome : HttpOutcome) (payload : JValue) (g : String)
    (hreq : request outcome = .ok payload)
    (hmiss : firstMissingSensorField payload = some g) :
    get_sensors_state outcome =
      .error (.keyError ("Missing required field in sensor data: " ++ g)) ∧
    isKeyError (get_sensors_state outcome) = true ∧
    isBoPiException (get_sensors_state outcome) = false := by
  have heq := get_sensors_state_first_missing outcome payload g hreq hmiss
  refine ⟨heq, ?_, ?_⟩
  · rw [heq]
    rfl
  · rw [heq]
    rfl

/-- Witness for C10 at a payload carrying the first three required fields
but lacking the uptime field. -/
theorem get_sensors_state_keyError_not_typed_witness :
    get_sensors_state (.response 200 "application/json"
      (HttpBody.mk "partial body" (some (JValue.obj
        [("phvalue", JValue.num 7), ("redoxvalue", JValue.num 300),
         ("boxhumidity", JValue.num 50)])))) =
      .error (.keyError ("Missing required field in sensor data: " ++ "uptime")) ∧
    isKeyError (get_sensors_state (.response 200 "application/json"
      (HttpBody.mk "partial body" (some (JValue.obj
        [("phvalue", JValue.num 7), ("redoxvalue", JValue.num 300),
         ("boxhumidity", JValue.num 50)]))))) = true ∧
    isBoPiException (get_sensors_state (.response 200 "application/json"
      (HttpBody.mk "partial body" (some (JValue.obj
        [("phvalue", JValue.num 7), ("redoxvalue", JValue.num 300),
         ("boxhumidity", JValue.num 50)]))))) = false :=
  get_sensors_state_keyError_not_typed
    (.response 200 "application/json"
      (HttpBody.mk "partial body" (some (JValue.obj
        [("phvalue", JValue.num 7), ("redoxvalue", JValue.num 300),
         ("boxhumidity", JValue.num 50)]))))
    (JValue.obj
      [("phvalue", JValue.num 7), ("redoxvalue", JValue.num 300),
       ("boxhumidity", JValue.num 50)]) "uptime" rfl rfl

end BoPi
